import Mathlib

/-!
Verification of the Growth-Insights IP-tracking middleware against its
design documentation.

The repository consists of a Next.js edge middleware (`middleware`,
`getIpInfoFromIp`, `saveIpInfoToDatabase`) that records a visitor's
IP-derived geolocation into a Supabase table `ip_info`, and a map page
(`fetchLocations` / `MapPage`) that plots the stored rows.

The shallow embedding below models one request's handling as a pure
function of the request descriptor and an environment `World` that fixes
the outcome of the external effects (the fetch to the geolocation
provider, the generated UUID, the database write outcome, the API token).
The effects the code performs — the response produced, the provider URLs
fetched, the rows passed to `upsert`, and the rows the store accepted —
are collected in an `Effects` record.
-/

set_option autoImplicit false

namespace GrowthInsights

/-- Request descriptor: the fields of `NextRequest` the middleware reads —
`request.nextUrl.pathname` and `request.headers.get("x-forwarded-for")`
(`none` models a `null` return from `headers.get`). -/
structure Request where
  pathname : String
  xForwardedFor : Option String
  deriving DecidableEq

/-- The object `getIpInfoFromIp` builds from the parsed provider JSON:
the nine projections `data.ip`, `data.hostname`, ..., `data.timezone`.
A `none` field models a JavaScript `undefined` (the key absent from the
parsed JSON). -/
structure IpInfo where
  ip : Option String
  hostname : Option String
  city : Option String
  region : Option String
  country : Option String
  loc : Option String
  org : Option String
  postal : Option String
  timezone : Option String
  deriving DecidableEq

/-- Outcome of the `fetch` to the geolocation provider.
`networkError` models `fetch` rejecting (network failure);
`response status body` models a completed HTTP response with the given
status code, where `body = none` models `res.json()` throwing (a body
that is not JSON) and `body = some d` models a JSON body whose nine
relevant projections are `d`. Note the source never reads `res.status`
or `res.ok`. -/
inductive FetchResult where
  | networkError : FetchResult
  | response (status : Nat) (body : Option IpInfo) : FetchResult
  deriving DecidableEq

/-- Outcome of the Supabase `upsert` call: `failure` models the call
returning a non-null `error`. -/
inductive WriteOutcome where
  | success : WriteOutcome
  | failure : WriteOutcome
  deriving DecidableEq

/-- Environment for one request: the outcomes of the external effects.
`uuid` is the value `crypto.randomUUID()` returns, `token` is
`process.env.IP_KEY`. -/
structure World where
  fetchResult : FetchResult
  uuid : String
  writeOutcome : WriteOutcome
  token : String
  deriving DecidableEq

/-- A row of the `ip_info` table, as built in `saveIpInfoToDatabase`. -/
structure IpRow where
  id : String
  ip : Option String
  hostname : Option String
  city : Option String
  region : Option String
  country : Option String
  loc : Option String
  org : Option String
  postal : Option String
  timezone : Option String
  deriving DecidableEq

/-- Response returned by the middleware: `next` is the pass-through
`NextResponse.next()`; `jsonError e s` is `NextResponse.json({error: e}, {status: s})`. -/
inductive Response where
  | next : Response
  | jsonError (error : String) (status : Nat) : Response
  deriving DecidableEq

/-- All observable effects of one middleware invocation. `fetchCalls` is
the list of URLs passed to `fetch`, `upsertAttempts` the rows passed to
`supabase.from("ip_info").upsert`, and `committedWrites` the rows the
store accepted (equal to the attempts when the write outcome is
`success`, empty on `failure`). -/
structure Effects where
  response : Response
  fetchCalls : List String
  upsertAttempts : List IpRow
  committedWrites : List IpRow
  deriving DecidableEq

/-- The constant `IPINFO_API_URL` of the source. -/
def IPINFO_API_URL : String := "https://ipinfo.io"

/-- The URL built in `getIpInfoFromIp`:
the template literal `IPINFO_API_URL/ip/json?token=IP_KEY`. -/
def ipinfoRequestUrl (ip token : String) : String :=
  IPINFO_API_URL ++ "/" ++ ip ++ "/json?token=" ++ token

/-- JavaScript falsiness of a `string | null` value: `!x` is true exactly
when `x` is `null` or the empty string. Used for the source's `if (!ip)`. -/
def jsFalsy : Option String → Bool
  | none => true
  | some s => decide (s = "")

/-- The allow-list of the source: `["/", "/poem", "/monitoring"]`. -/
def allowedPaths : List String := ["/", "/poem", "/monitoring"]

/-- Embedding of `getIpInfoFromIp`: `fetch` rejecting or `res.json()`
throwing lands in the `catch` and returns `null`; otherwise the function
returns the object built from the nine projections of `data`. The HTTP
status of a completed response is ignored, exactly as in the source. -/
def getIpInfoFromIp (r : FetchResult) : Option IpInfo :=
  match r with
  | FetchResult.networkError => none
  | FetchResult.response _ none => none
  | FetchResult.response _ (some data) =>
    some { ip := data.ip, hostname := data.hostname, city := data.city,
           region := data.region, country := data.country, loc := data.loc,
           org := data.org, postal := data.postal, timezone := data.timezone }

/-- The single row `saveIpInfoToDatabase` passes to `upsert`:
`id` is the freshly generated UUID, the other nine fields are copied
from the `ipInfo` object. -/
def mkIpRow (uuid : String) (info : IpInfo) : IpRow :=
  { id := uuid, ip := info.ip, hostname := info.hostname, city := info.city,
    region := info.region, country := info.country, loc := info.loc,
    org := info.org, postal := info.postal, timezone := info.timezone }

/-- Embedding of `saveIpInfoToDatabase`: on `null` input it returns
without touching the store; otherwise it attempts exactly one upsert of
`mkIpRow`. The returned list is the sequence of upsert attempts made. -/
def saveIpInfoToDatabase (uuid : String) (ipInfo : Option IpInfo) : List IpRow :=
  match ipInfo with
  | none => []
  | some info => [mkIpRow uuid info]

/-- Embedding of `middleware`: the path gate, the `x-forwarded-for`
extraction with the JavaScript falsy check `if (!ip)`, then
`getIpInfoFromIp` followed by `saveIpInfoToDatabase`, returning the
pass-through response. A write failure is only logged in the source, so
it leaves the response and the attempt list unchanged and only empties
the committed writes. -/
def middleware (w : World) (request : Request) : Effects :=
  if !(allowedPaths.contains request.pathname) then
    { response := Response.jsonError "Access to this endpoint is not allowed" 403,
      fetchCalls := [], upsertAttempts := [], committedWrites := [] }
  else
    let ip := request.xForwardedFor
    if jsFalsy ip then
      { response := Response.jsonError "IP not found" 400,
        fetchCalls := [], upsertAttempts := [], committedWrites := [] }
    else
      let ipStr := ip.getD ""
      let ipInfo := getIpInfoFromIp w.fetchResult
      let attempts := saveIpInfoToDatabase w.uuid ipInfo
      { response := Response.next,
        fetchCalls := [ipinfoRequestUrl ipStr w.token],
        upsertAttempts := attempts,
        committedWrites :=
          match w.writeOutcome with
          | WriteOutcome.success => attempts
          | WriteOutcome.failure => [] }

/-- C1: a request whose path is outside the allow-list gets exactly a 403
response with the JSON error body, and neither a provider fetch nor any
upsert attempt occurs. -/
theorem c1_forbidden_path_403_no_side_effects (w : World) (req : Request)
    (hpath : allowedPaths.contains req.pathname = false) :
    (middleware w req).response
        = Response.jsonError "Access to this endpoint is not allowed" 403 ∧
    (middleware w req).fetchCalls = [] ∧
    (middleware w req).upsertAttempts = [] ∧
    (middleware w req).committedWrites = [] := by
  have h : req.pathname ∉ allowedPaths := by simpa using hpath
  simp [middleware, h]

/-- Witness for C1 at the spec's scenario path `/secret-admin`. -/
theorem c1_witness :
    allowedPaths.contains "/secret-admin" = false ∧
    (middleware ⟨FetchResult.networkError, "u0", WriteOutcome.success, "tok"⟩
        ⟨"/secret-admin", some "8.8.8.8"⟩).response
      = Response.jsonError "Access to this endpoint is not allowed" 403 ∧
    (middleware ⟨FetchResult.networkError, "u0", WriteOutcome.success, "tok"⟩
        ⟨"/secret-admin", some "8.8.8.8"⟩).fetchCalls = [] ∧
    (middleware ⟨FetchResult.networkError, "u0", WriteOutcome.success, "tok"⟩
        ⟨"/secret-admin", some "8.8.8.8"⟩).upsertAttempts = [] ∧
    (middleware ⟨FetchResult.networkError, "u0", WriteOutcome.success, "tok"⟩
        ⟨"/secret-admin", some "8.8.8.8"⟩).committedWrites = [] :=
  ⟨by decide,
   c1_forbidden_path_403_no_side_effects _ _ (by decide)⟩

/-- C2: an allowed-path request with no `x-forwarded-for` header gets
exactly a 400 response with a structured error body, and neither a
provider fetch nor any upsert attempt occurs. -/
theorem c2_missing_ip_400_no_side_effects (w : World) (req : Request)
    (hpath : allowedPaths.contains req.pathname = true)
    (hip : req.xForwardedFor = none) :
    (middleware w req).response = Response.jsonError "IP not found" 400 ∧
    (middleware w req).fetchCalls = [] ∧
    (middleware w req).upsertAttempts = [] ∧
    (middleware w req).committedWrites = [] := by
  have h : req.pathname ∈ allowedPaths := by simpa using hpath
  simp [middleware, h, hip, jsFalsy]

/-- Witness for C2 on the path `/poem` with the header absent. -/
theorem c2_witness :
    allowedPaths.contains "/poem" = true ∧
    (⟨"/poem", none⟩ : Request).xForwardedFor = none ∧
    (middleware ⟨FetchResult.networkError, "u0", WriteOutcome.success, "tok"⟩
        ⟨"/poem", none⟩).response = Response.jsonError "IP not found" 400 ∧
    (middleware ⟨FetchResult.networkError, "u0", WriteOutcome.success, "tok"⟩
        ⟨"/poem", none⟩).fetchCalls = [] ∧
    (middleware ⟨FetchResult.networkError, "u0", WriteOutcome.success, "tok"⟩
        ⟨"/poem", none⟩).upsertAttempts = [] ∧
    (middleware ⟨FetchResult.networkError, "u0", WriteOutcome.success, "tok"⟩
        ⟨"/poem", none⟩).committedWrites = [] :=
  ⟨by decide, rfl,
   (c2_missing_ip_400_no_side_effects _ _ (by decide) rfl).1,
   (c2_missing_ip_400_no_side_effects _ _ (by decide) rfl).2.1,
   (c2_missing_ip_400_no_side_effects _ _ (by decide) rfl).2.2.1,
   (c2_missing_ip_400_no_side_effects _ _ (by decide) rfl).2.2.2⟩

/-- C10: an allowed-path request whose `x-forwarded-for` header is present
but equal to the empty string is rejected with the same 400 error as a
missing header (the `if (!ip)` falsy check conflates the two), with no
provider fetch and no upsert attempt. -/
theorem c10_empty_ip_header_400_like_missing (w : World) (req : Request)
    (hpath : allowedPaths.contains req.pathname = true)
    (hip : req.xForwardedFor = some "") :
    (middleware w req).response = Response.jsonError "IP not found" 400 ∧
    (middleware w req).response
        = (middleware w { req with xForwardedFor := none }).response ∧
    (middleware w req).fetchCalls = [] ∧
    (middleware w req).upsertAttempts = [] ∧
    (middleware w req).committedWrites = [] := by
  have h : req.pathname ∈ allowedPaths := by simpa using hpath
  simp [middleware, h, hip, jsFalsy]

/-- Witness for C10 on the path `/` with an empty header value. -/
theorem c10_witness :
    allowedPaths.contains "/" = true ∧
    (middleware ⟨FetchResult.response 200 (some ⟨some "8.8.8.8", none, none,
        none, none, none, none, none, none⟩), "u0", WriteOutcome.success, "tok"⟩
        ⟨"/", some ""⟩).response = Response.jsonError "IP not found" 400 ∧
    (middleware ⟨FetchResult.response 200 (some ⟨some "8.8.8.8", none, none,
        none, none, none, none, none, none⟩), "u0", WriteOutcome.success, "tok"⟩
        ⟨"/", some ""⟩).upsertAttempts = [] :=
  ⟨by decide,
   (c10_empty_ip_header_400_like_missing _ _ (by decide) rfl).1,
   (c10_empty_ip_header_400_like_missing _ _ (by decide) rfl).2.2.2.1⟩

/-- C3 counterexample: a completed provider response with non-success
status 500 whose body parses as JSON (here a JSON object carrying none of
the nine fields) does NOT make the lookup return null, and a storage
write IS attempted — the source never inspects `res.status`. -/
theorem c3_counterexample :
    getIpInfoFromIp (FetchResult.response 500
        (some ⟨none, none, none, none, none, none, none, none, none⟩)) ≠ none ∧
    (middleware
        ⟨FetchResult.response 500
            (some ⟨none, none, none, none, none, none, none, none, none⟩),
          "uuid-a", WriteOutcome.success, "tok"⟩
        ⟨"/poem", some "1.2.3.4"⟩).upsertAttempts ≠ [] := by
  constructor <;> decide

/-- C3 (amended): for every lookup outcome that is a network error or a
malformed (non-JSON) response, the lookup returns null, no storage write
is attempted, and the original response is still returned; the HTTP
status is never inspected, so a non-success response with a JSON body is
not a lookup failure. -/
theorem c3_lookup_failure_no_write_response_passes (w : World) (req : Request)
    (ip : String)
    (hpath : allowedPaths.contains req.pathname = true)
    (hip : req.xForwardedFor = some ip) (hne : ip ≠ "")
    (hfail : w.fetchResult = FetchResult.networkError ∨
             ∃ s, w.fetchResult = FetchResult.response s none) :
    getIpInfoFromIp w.fetchResult = none ∧
    (middleware w req).upsertAttempts = [] ∧
    (middleware w req).committedWrites = [] ∧
    (middleware w req).response = Response.next := by
  have h : req.pathname ∈ allowedPaths := by simpa using hpath
  have hlookup : getIpInfoFromIp w.fetchResult = none := by
    rcases hfail with hf | ⟨s, hf⟩ <;> simp [getIpInfoFromIp, hf]
  have hfalse : jsFalsy (some ip) = false := by simp [jsFalsy, hne]
  obtain ⟨fr, u, wo, tok⟩ := w
  cases wo <;>
    simp_all [middleware, h, hip, hfalse, saveIpInfoToDatabase]

/-- Witness for C3 at a concrete network failure on the path `/`. -/
theorem c3_witness :
    getIpInfoFromIp
        (⟨FetchResult.networkError, "u1", WriteOutcome.success, "tk"⟩ :
          World).fetchResult = none ∧
    (middleware ⟨FetchResult.networkError, "u1", WriteOutcome.success, "tk"⟩
        ⟨"/", some "203.0.113.9"⟩).upsertAttempts = [] ∧
    (middleware ⟨FetchResult.networkError, "u1", WriteOutcome.success, "tk"⟩
        ⟨"/", some "203.0.113.9"⟩).committedWrites = [] ∧
    (middleware ⟨FetchResult.networkError, "u1", WriteOutcome.success, "tk"⟩
        ⟨"/", some "203.0.113.9"⟩).response = Response.next :=
  c3_lookup_failure_no_write_response_passes _ _ "203.0.113.9"
    (by decide) rfl (by decide) (Or.inl rfl)

/-- C4: an allowed-path request with a usable IP header whose provider
call succeeds with a full payload commits exactly one new row, carrying
the freshly generated id and all nine payload fields verbatim, and the
caller receives the pass-through (non-error) response. -/
theorem c4_full_payload_one_row_verbatim (w : World) (req : Request)
    (ip : String) (d : IpInfo) (st : Nat)
    (vip vhost vcity vregion vcountry vloc vorg vpostal vtz : String)
    (hpath : allowedPaths.contains req.pathname = true)
    (hip : req.xForwardedFor = some ip) (hne : ip ≠ "")
    (hfetch : w.fetchResult = FetchResult.response st (some d))
    (hdip : d.ip = some vip) (hdhost : d.hostname = some vhost)
    (hdcity : d.city = some vcity) (hdregion : d.region = some vregion)
    (hdcountry : d.country = some vcountry) (hdloc : d.loc = some vloc)
    (hdorg : d.org = some vorg) (hdpostal : d.postal = some vpostal)
    (hdtz : d.timezone = some vtz)
    (hwrite : w.writeOutcome = WriteOutcome.success) :
    (middleware w req).committedWrites
      = [{ id := w.uuid, ip := some vip, hostname := some vhost,
           city := some vcity, region := some vregion, country := some vcountry,
           loc := some vloc, org := some vorg, postal := some vpostal,
           timezone := some vtz }] ∧
    (middleware w req).response = Response.next := by
  have h : req.pathname ∈ allowedPaths := by simpa using hpath
  have hfalse : jsFalsy (some ip) = false := by simp [jsFalsy, hne]
  obtain ⟨fr, u, wo, tok⟩ := w
  simp_all [middleware, h, hip, hfalse, getIpInfoFromIp,
    saveIpInfoToDatabase, mkIpRow]

/-- Witness for C4 at the spec's scenario: `/monitoring` with header
`8.8.8.8` and a full provider payload. -/
theorem c4_witness :
    (middleware
        ⟨FetchResult.response 200
            (some ⟨some "8.8.8.8", some "dns.google", some "Mountain View",
              some "California", some "US", some "37.4,-122.07",
              some "AS15169 Google LLC", some "94043",
              some "America/Los_Angeles"⟩),
          "id-1", WriteOutcome.success, "tk"⟩
        ⟨"/monitoring", some "8.8.8.8"⟩).committedWrites
      = [{ id := "id-1", ip := some "8.8.8.8", hostname := some "dns.google",
           city := some "Mountain View", region := some "California",
           country := some "US", loc := some "37.4,-122.07",
           org := some "AS15169 Google LLC", postal := some "94043",
           timezone := some "America/Los_Angeles" }] ∧
    (middleware
        ⟨FetchResult.response 200
            (some ⟨some "8.8.8.8", some "dns.google", some "Mountain View",
              some "California", some "US", some "37.4,-122.07",
              some "AS15169 Google LLC", some "94043",
              some "America/Los_Angeles"⟩),
          "id-1", WriteOutcome.success, "tk"⟩
        ⟨"/monitoring", some "8.8.8.8"⟩).response = Response.next :=
  c4_full_payload_one_row_verbatim _ _ "8.8.8.8" _ 200
    "8.8.8.8" "dns.google" "Mountain View" "California" "US" "37.4,-122.07"
    "AS15169 Google LLC" "94043" "America/Los_Angeles"
    (by decide) rfl (by decide) rfl rfl rfl rfl rfl rfl rfl rfl rfl rfl rfl

/-- C5: on an allowed path with a non-empty `x-forwarded-for` value `V`,
exactly one provider fetch is issued and its URL embeds `V` verbatim as
the path parameter between the base URL and `/json?token=`; no
list-splitting, trimming or IP-syntax validation is applied. -/
theorem c5_provider_called_with_verbatim_ip (w : World) (req : Request)
    (ip : String)
    (hpath : allowedPaths.contains req.pathname = true)
    (hip : req.xForwardedFor = some ip) (hne : ip ≠ "") :
    (middleware w req).fetchCalls
      = ["https://ipinfo.io/" ++ (ip ++ ("/json?token=" ++ w.token))] := by
  have h : req.pathname ∈ allowedPaths := by simpa using hpath
  have hfalse : jsFalsy (some ip) = false := by simp [jsFalsy, hne]
  simp [middleware, h, hip, hfalse, ipinfoRequestUrl, IPINFO_API_URL,
    String.append_assoc]

/-- Witness for C5: a header carrying a comma-separated proxy chain is
passed through whole, with no splitting. -/
theorem c5_witness :
    (middleware ⟨FetchResult.networkError, "u2", WriteOutcome.success, "tk"⟩
        ⟨"/", some "8.8.8.8, 203.0.113.9"⟩).fetchCalls
      = ["https://ipinfo.io/8.8.8.8, 203.0.113.9/json?token=tk"] :=
  (c5_provider_called_with_verbatim_ip _ _ "8.8.8.8, 203.0.113.9"
    (by decide) rfl (by decide)).trans (by decide)

/-- C6: two identical qualifying requests from the same IP whose lookups
both succeed commit two rows whose ids are the two freshly generated
UUIDs; since those differ, the rows are distinct — no deduplication. -/
theorem c6_same_ip_two_distinct_rows (w1 w2 : World) (req : Request)
    (ip : String) (i1 i2 : IpInfo)
    (hpath : allowedPaths.contains req.pathname = true)
    (hip : req.xForwardedFor = some ip) (hne : ip ≠ "")
    (h1 : getIpInfoFromIp w1.fetchResult = some i1)
    (h2 : getIpInfoFromIp w2.fetchResult = some i2)
    (hw1 : w1.writeOutcome = WriteOutcome.success)
    (hw2 : w2.writeOutcome = WriteOutcome.success)
    (huuid : w1.uuid ≠ w2.uuid) :
    ∃ r1 r2 : IpRow,
      (middleware w1 req).committedWrites = [r1] ∧
      (middleware w2 req).committedWrites = [r2] ∧
      r1.id = w1.uuid ∧ r2.id = w2.uuid ∧ r1.id ≠ r2.id ∧ r1 ≠ r2 := by
  have h : req.pathname ∈ allowedPaths := by simpa using hpath
  have hfalse : jsFalsy (some ip) = false := by simp [jsFalsy, hne]
  have hr1 : (middleware w1 req).committedWrites = [mkIpRow w1.uuid i1] := by
    obtain ⟨fr, u, wo, tok⟩ := w1
    simp_all [middleware, h, hip, hfalse, saveIpInfoToDatabase]
  have hr2 : (middleware w2 req).committedWrites = [mkIpRow w2.uuid i2] := by
    obtain ⟨fr, u, wo, tok⟩ := w2
    simp_all [middleware, h, hip, hfalse, saveIpInfoToDatabase]
  exact ⟨mkIpRow w1.uuid i1, mkIpRow w2.uuid i2, hr1, hr2, rfl, rfl, huuid,
    fun heq => huuid (congrArg IpRow.id heq)⟩

/-- Witness for C6: the same request and the same payload processed under
two different generated UUIDs. -/
theorem c6_witness :
    ∃ r1 r2 : IpRow,
      (middleware
          ⟨FetchResult.response 200
              (some ⟨some "8.8.8.8", none, none, none, none,
                some "37.4,-122.07", none, none, none⟩),
            "uuid-1", WriteOutcome.success, "tk"⟩
          ⟨"/", some "8.8.8.8"⟩).committedWrites = [r1] ∧
      (middleware
          ⟨FetchResult.response 200
              (some ⟨some "8.8.8.8", none, none, none, none,
                some "37.4,-122.07", none, none, none⟩),
            "uuid-2", WriteOutcome.success, "tk"⟩
          ⟨"/", some "8.8.8.8"⟩).committedWrites = [r2] ∧
      r1.id = "uuid-1" ∧ r2.id = "uuid-2" ∧ r1.id ≠ r2.id ∧ r1 ≠ r2 :=
  c6_same_ip_two_distinct_rows _ _ _ "8.8.8.8" _ _
    (by decide) rfl (by decide) rfl rfl rfl rfl (by decide)

/-- C7 counterexample: a parsed provider JSON that carries only the `ip`
field still produces an upsert of a record whose other eight fields are
missing, and the store accepts it — a record with missing fields IS
written. -/
theorem c7_counterexample :
    (middleware
        ⟨FetchResult.response 200
            (some ⟨some "198.51.100.7", none, none, none, none, none, none,
              none, none⟩),
          "uuid-b", WriteOutcome.success, "tok"⟩
        ⟨"/monitoring", some "198.51.100.7"⟩).upsertAttempts
      = [{ id := "uuid-b", ip := some "198.51.100.7", hostname := none,
           city := none, region := none, country := none, loc := none,
           org := none, postal := none, timezone := none }] ∧
    (middleware
        ⟨FetchResult.response 200
            (some ⟨some "198.51.100.7", none, none, none, none, none, none,
              none, none⟩),
          "uuid-b", WriteOutcome.success, "tok"⟩
        ⟨"/monitoring", some "198.51.100.7"⟩).committedWrites ≠ [] := by
  constructor <;> decide

/-- C7 (amended): for every request, either no record at all is passed to
the store, or exactly one record is, whose id is the fresh UUID and whose
nine data fields are the nine projections of the parsed provider JSON —
projections absent from the JSON are written as missing, so records with
missing fields can reach the store, but a lookup that returned null never
produces a write. -/
theorem c7_single_write_from_parsed_body (w : World) (req : Request) :
    (middleware w req).upsertAttempts = [] ∨
    (∃ st d, w.fetchResult = FetchResult.response st (some d) ∧
      (middleware w req).upsertAttempts
        = [{ id := w.uuid, ip := d.ip, hostname := d.hostname, city := d.city,
             region := d.region, country := d.country, loc := d.loc,
             org := d.org, postal := d.postal, timezone := d.timezone }]) := by
  obtain ⟨fr, u, wo, tok⟩ := w
  simp only [middleware]
  split
  · exact Or.inl rfl
  · split
    · exact Or.inl rfl
    · cases fr with
      | networkError =>
        exact Or.inl (by simp [getIpInfoFromIp, saveIpInfoToDatabase])
      | response st body =>
        cases body with
        | none =>
          exact Or.inl (by simp [getIpInfoFromIp, saveIpInfoToDatabase])
        | some d =>
          exact Or.inr ⟨st, d, rfl,
            by simp [getIpInfoFromIp, saveIpInfoToDatabase, mkIpRow]⟩

/-- C8: when the database write fails, the failure is invisible to the
caller: the pass-through response is still returned, and exactly one
upsert was attempted (no retry) while the store accepted nothing. -/
theorem c8_write_failure_logged_only (w : World) (req : Request)
    (ip : String) (info : IpInfo)
    (hpath : allowedPaths.contains req.pathname = true)
    (hip : req.xForwardedFor = some ip) (hne : ip ≠ "")
    (hinfo : getIpInfoFromIp w.fetchResult = some info)
    (hfail : w.writeOutcome = WriteOutcome.failure) :
    (middleware w req).response = Response.next ∧
    (middleware w req).upsertAttempts = [mkIpRow w.uuid info] ∧
    (middleware w req).committedWrites = [] := by
  have h : req.pathname ∈ allowedPaths := by simpa using hpath
  have hfalse : jsFalsy (some ip) = false := by simp [jsFalsy, hne]
  obtain ⟨fr, u, wo, tok⟩ := w
  simp_all [middleware, h, hip, hfalse, saveIpInfoToDatabase]

/-- Witness for C8: a failed write on `/monitoring` with a successful
lookup. -/
theorem c8_witness :
    (middleware
        ⟨FetchResult.response 200
            (some ⟨some "8.8.8.8", none, some "Mountain View", none,
              some "US", some "37.4,-122.07", none, none, none⟩),
          "uuid-c", WriteOutcome.failure, "tk"⟩
        ⟨"/monitoring", some "8.8.8.8"⟩).response = Response.next ∧
    (middleware
        ⟨FetchResult.response 200
            (some ⟨some "8.8.8.8", none, some "Mountain View", none,
              some "US", some "37.4,-122.07", none, none, none⟩),
          "uuid-c", WriteOutcome.failure, "tk"⟩
        ⟨"/monitoring", some "8.8.8.8"⟩).upsertAttempts
      = [mkIpRow "uuid-c"
          ⟨some "8.8.8.8", none, some "Mountain View", none, some "US",
            some "37.4,-122.07", none, none, none⟩] ∧
    (middleware
        ⟨FetchResult.response 200
            (some ⟨some "8.8.8.8", none, some "Mountain View", none,
              some "US", some "37.4,-122.07", none, none, none⟩),
          "uuid-c", WriteOutcome.failure, "tk"⟩
        ⟨"/monitoring", some "8.8.8.8"⟩).committedWrites = [] :=
  c8_write_failure_logged_only _ _ "8.8.8.8" _
    (by decide) rfl (by decide) rfl rfl

/-- A row returned by the map page's query
`supabase.from("ip_info").select("loc, city, country, hostname")`. -/
structure LocRow where
  loc : Option String
  city : Option String
  country : Option String
  hostname : Option String
  deriving DecidableEq

/-- Embedding of the filter in `fetchLocations`:
`data.filter((item) => item.loc)` keeps exactly the rows whose `loc` is
present and non-empty (JavaScript truthiness on a `string | null`). -/
def fetchLocations (rows : List LocRow) : List LocRow :=
  rows.filter fun item => !(jsFalsy item.loc)

/-- A Leaflet marker as placed by `MapPage`: the destructured
`[lat, lng] = loc.split(",").map(Number)` (a `none` component models
`undefined` when the split yields fewer than two parts) together with the
fields bound into the popup. `α` abstracts the value type of the
JavaScript `Number` conversion. -/
structure Marker (α : Type) where
  lat : Option α
  lng : Option α
  popupCity : Option String
  popupCountry : Option String
  popupHostname : Option String
  deriving DecidableEq

/-- The marker the `locations.forEach` body builds for one row. -/
def markerOfRow {α : Type} (num : String → α) (r : LocRow) : Marker α :=
  let parts := ((r.loc.getD "").splitOn ",").map num
  { lat := parts.get? 0, lng := parts.get? 1,
    popupCity := r.city, popupCountry := r.country,
    popupHostname := r.hostname }

/-- Embedding of the `locations.forEach` loop: one marker is added to the
map per fetched location, in order. -/
def placeMarkers {α : Type} (num : String → α) : List LocRow → List (Marker α)
  | [] => []
  | r :: rest => markerOfRow num r :: placeMarkers num rest

/-- The markers `MapPage` renders for a given list of fetched rows. -/
def mapPageMarkers {α : Type} (num : String → α) (rows : List LocRow) :
    List (Marker α) :=
  placeMarkers num (fetchLocations rows)

/-- The forEach loop places markers exactly row by row. -/
theorem placeMarkers_eq_map {α : Type} (num : String → α) (l : List LocRow) :
    placeMarkers num l = l.map (markerOfRow num) := by
  induction l with
  | nil => rfl
  | cons r rest ih => simp [placeMarkers, ih]

/-- C9: the page renders exactly one marker per fetched row with a
non-empty `loc`; each such row yields the marker whose position is the
two components of `loc` split on the comma and passed through the number
conversion, and every rendered marker arises from such a row. Rows with
an absent or empty `loc` produce no marker. -/
theorem c9_one_marker_per_nonempty_loc {α : Type} (num : String → α)
    (rows : List LocRow) :
    (mapPageMarkers num rows).length
        = rows.countP (fun r => !(jsFalsy r.loc)) ∧
    (∀ r ∈ rows, ∀ s, r.loc = some s → s ≠ "" →
        (⟨((s.splitOn ",").map num).get? 0, ((s.splitOn ",").map num).get? 1,
          r.city, r.country, r.hostname⟩ : Marker α)
          ∈ mapPageMarkers num rows) ∧
    (∀ m ∈ mapPageMarkers num rows, ∃ r ∈ rows, ∃ s,
        r.loc = some s ∧ s ≠ "" ∧
        m.lat = ((s.splitOn ",").map num).get? 0 ∧
        m.lng = ((s.splitOn ",").map num).get? 1) := by
  refine ⟨?_, ?_, ?_⟩
  · simp [mapPageMarkers, placeMarkers_eq_map, fetchLocations,
      List.countP_eq_length_filter]
  · intro r hr s hs hne
    have hmem : r ∈ fetchLocations rows := by
      rw [fetchLocations, List.mem_filter]
      exact ⟨hr, by simp [jsFalsy, hs, hne]⟩
    have hm : markerOfRow num r ∈ mapPageMarkers num rows := by
      rw [mapPageMarkers, placeMarkers_eq_map]
      exact List.mem_map_of_mem _ hmem
    simpa [markerOfRow, hs] using hm
  · intro m hm
    rw [mapPageMarkers, placeMarkers_eq_map] at hm
    obtain ⟨r, hrmem, rfl⟩ := List.mem_map.1 hm
    obtain ⟨hrrows, hkeep⟩ := List.mem_filter.1 hrmem
    cases hloc : r.loc with
    | none => simp [jsFalsy, hloc] at hkeep
    | some s =>
      have hne : s ≠ "" := by simpa [jsFalsy, hloc] using hkeep
      exact ⟨r, hrrows, s, hloc, hne, by simp [markerOfRow, hloc],
        by simp [markerOfRow, hloc]⟩

/-- Witness for C9: of three fetched rows — a usable `loc`, an empty
`loc`, and an absent `loc` — exactly one marker is rendered. -/
theorem c9_witness :
    (mapPageMarkers String.length
        [⟨some "1,2", some "A", some "B", some "C"⟩,
         ⟨some "", none, none, none⟩,
         ⟨none, some "X", none, none⟩]).length = 1 := by
  rw [(c9_one_marker_per_nonempty_loc String.length
    [⟨some "1,2", some "A", some "B", some "C"⟩,
     ⟨some "", none, none, none⟩,
     ⟨none, some "X", none, none⟩]).1]
  decide

end GrowthInsights
